import Mathlib

set_option maxRecDepth 8000

/-! Shallow embedding of the instadl repository (src/api.py and src/test.py):
an HTTP service that validates an Instagram post URL, loads session cookies
from a Netscape cookie file, and either extracts direct media URLs
(src/api.py, urls-only mode) or downloads the media with a bounded retry
loop (src/test.py, download mode).  External effects (filesystem, network,
the instaloader library) are modelled as explicit parameters: the cookie
file's parsed content, whether the cookie file exists, and the outcome of
each network attempt.  Strings are Lean `String`s; the URL regex search is
embedded over `List Char`. -/

/- ### URL validation: `validate_url` (src/api.py lines 9-22, src/test.py lines 10-23)

`re.search(r'instagram\.com/p/([A-Za-z0-9-_]+)', url)`: scan positions left
to right; at each position the literal `instagram.com/p/` must match,
followed by a greedy non-empty run of `[A-Za-z0-9-_]`; the run is the
captured shortcode. -/

def isShortcodeChar (c : Char) : Bool :=
  ('A' ≤ c && c ≤ 'Z') || ('a' ≤ c && c ≤ 'z') || ('0' ≤ c && c ≤ '9') || c == '-' || c == '_'

def igPat : List Char := "instagram.com/p/".toList

def matchAt (s : List Char) : Option (List Char) :=
  if igPat.isPrefixOf s then
    if ((s.drop igPat.length).takeWhile isShortcodeChar).isEmpty then none
    else some ((s.drop igPat.length).takeWhile isShortcodeChar)
  else none

def validate_url : List Char → Option (List Char)
  | [] => none
  | c :: rest =>
    match matchAt (c :: rest) with
    | some r => some r
    | none => validate_url rest

/-- Written from the spec's words: the input contains, at position `i`, a
substring `instagram.com/p/<id>` with `<id>` a non-empty run of
`[A-Za-z0-9-_]`. -/
def shortcodeOccursAt (s : List Char) (i : Nat) : Bool :=
  igPat.isPrefixOf (s.drop i) &&
    !((s.drop (i + igPat.length)).takeWhile isShortcodeChar).isEmpty

/-- Written from the spec's words: the maximal run of `[A-Za-z0-9-_]`
characters following the literal pattern at position `i`. -/
def shortcodeAt (s : List Char) (i : Nat) : List Char :=
  (s.drop (i + igPat.length)).takeWhile isShortcodeChar

/- ### Cookie loading: `load_cookies_from_file` (src/api.py lines 24-45, src/test.py lines 25-49)

The Netscape cookie file is modelled as either `malformed` (the
`MozillaCookieJar.load` call raises: absent file, I/O error, bad format) or
a list of parsed cookie records in file order.  The loop of the loader does
not run over the raw records: it iterates the `http.cookiejar` jar, which
stores one cookie per `(domain, path, name)` key — later records
overwriting earlier ones — and yields them grouped and sorted by domain,
then path, then name (`deepvalues`/`vals_sorted_by_key`); `jarIterate`
below embeds that iteration. -/

structure CookieRec where
  name : String
  value : String
  domain : String
  path : String
deriving DecidableEq

inductive CookieFile where
  | malformed : CookieFile
  | records : List CookieRec → CookieFile
deriving DecidableEq

/-- The `cookies` dict restricted to the two keys the loop can ever write. -/
structure CookieDict where
  sessionid : Option String
  csrftoken : Option String
deriving DecidableEq

def emptyCookieDict : CookieDict := ⟨none, none⟩

/-- One iteration of the loop over the jar:
`if cookie.name in ["sessionid", "csrftoken"] and cookie.domain == ".instagram.com":
cookies[cookie.name] = cookie.value`. -/
def insertCookie (d : CookieDict) (c : CookieRec) : CookieDict :=
  if (c.name = "sessionid" ∨ c.name = "csrftoken") ∧ c.domain = ".instagram.com" then
    if c.name = "sessionid" then { d with sessionid := some c.value }
    else { d with csrftoken := some c.value }
  else d

/-- Lexicographic comparison of strings by code point, as Python `sorted`
compares `str` keys. -/
def charListLe : List Char → List Char → Bool
  | [], _ => true
  | _ :: _, [] => false
  | a :: as, b :: bs => if a < b then true else if b < a then false else charListLe as bs

def insertSorted (x : String) : List String → List String
  | [] => [x]
  | y :: t => if charListLe x.data y.data then x :: y :: t else y :: insertSorted x t

/-- Ascending sort, modelling `sorted(adict.keys())` inside
`http.cookiejar.vals_sorted_by_key` (the keys handed to it are distinct). -/
def sortStrings : List String → List String
  | [] => []
  | x :: t => insertSorted x (sortStrings t)

def dedupSeen (seen : List String) : List String → List String
  | [] => []
  | x :: t => if x ∈ seen then dedupSeen seen t else x :: dedupSeen (x :: seen) t

/-- The distinct members of `l`: the key set of a dict built by assigning
over `l`. -/
def dedupStrings (l : List String) : List String := dedupSeen [] l

/-- The cookie the jar stores at key `(d, p, n)`.  `CookieJar.set_cookie`
assigns `self._cookies[domain][path][name] = cookie` for each record in
file order, so a later record with the same key silently overwrites an
earlier one and the last such record survives. -/
def lastWithKey (d p n : String) : List CookieRec → Option CookieRec
  | [] => none
  | c :: t =>
    match lastWithKey d p n t with
    | some r => some r
    | none => if c.domain = d ∧ c.path = p ∧ c.name = n then some c else none

/-- The jar's iteration order over the loaded records: `CookieJar.__iter__`
walks the nested `domain → path → name → cookie` dict with `deepvalues`,
which visits every level sorted by key (`vals_sorted_by_key`), yielding one
cookie per `(domain, path, name)` key — the last file record with that
key. -/
def jarIterate (rs : List CookieRec) : List CookieRec :=
  (sortStrings (dedupStrings (rs.map (fun r => r.domain)))).flatMap (fun d =>
    (sortStrings (dedupStrings ((rs.filter (fun r => r.domain == d)).map
        (fun r => r.path)))).flatMap (fun p =>
      (sortStrings (dedupStrings ((rs.filter (fun r => r.domain == d && r.path == p)).map
          (fun r => r.name)))).filterMap (fun n => lastWithKey d p n rs)))

def load_cookies_from_file : CookieFile → Option (String × String)
  | CookieFile.malformed => none
  | CookieFile.records rs =>
    match ((jarIterate rs).foldl insertCookie emptyCookieDict).sessionid,
          ((jarIterate rs).foldl insertCookie emptyCookieDict).csrftoken with
    | some s, some c => some (s, c)
    | _, _ => none

/-- Written from the claim's words: the value of the last record in file
order whose name is `name` and whose domain is exactly `.instagram.com`. -/
def lastMatchingValue (name : String) : List CookieRec → Option String
  | [] => none
  | c :: t =>
    match lastMatchingValue name t with
    | some v => some v
    | none =>
      if c.name = name ∧ c.domain = ".instagram.com" then some c.value else none

/- ### The instaloader surface used by the code

`Post.from_shortcode` yields a post with `is_video`, `video_url`, `url`
(the display URL), `typename` and, for `GraphSidecar` posts, the declared
children from `get_sidecar_nodes()`, each with `is_video`, `video_url` and
`display_url`. -/

structure SidecarNode where
  is_video : Bool
  video_url : String
  display_url : String
deriving DecidableEq

structure Post where
  is_video : Bool
  video_url : String
  url : String
  typename : String
  sidecar_nodes : List SidecarNode
deriving DecidableEq

/-- Outcome of the single `Post.from_shortcode` network call in src/api.py.
The instaloader exception classes `ConnectionException`,
`BadResponseException` and `LoginRequiredException` are sibling subclasses
of `InstaloaderException`; any other failure falls under `Exception`. -/
inductive FetchOutcome where
  | ok : Post → FetchOutcome
  | connError : String → FetchOutcome
  | badResponse : String → FetchOutcome
  | loginRequired : FetchOutcome
  | otherError : String → FetchOutcome

/-- `os.path.join` for the paths the code builds (a relative right operand). -/
def ospathJoin (a b : String) : String := a ++ "/" ++ b

/-- src/api.py lines 93-103: the primary item's URL, then, when the post is
a `GraphSidecar`, one URL per sidecar node in declared order. -/
def mediaUrlsOf (post : Post) : List String :=
  (if post.is_video then [post.video_url] else [post.url]) ++
    (if post.typename = "GraphSidecar" then
      post.sidecar_nodes.map (fun n => if n.is_video then n.video_url else n.display_url)
    else [])

structure UrlsResult where
  status : String
  message : String
  media_urls : List String
deriving DecidableEq

/-- src/api.py lines 47-118, `get_instagram_post_urls`.  The second
component counts network calls (`Post.from_shortcode` invocations). -/
def get_instagram_post_urls (url : String) (cookies_file : String) (scriptDir : String)
    (cookiesFileExists : Bool) (cookieFile : CookieFile) (fetch : FetchOutcome) :
    UrlsResult × Nat :=
  match validate_url url.toList with
  | none =>
    (⟨"error", "Invalid Instagram URL! Please ensure it contains a valid post code (e.g., instagram.com/p/XXXXX).", []⟩, 0)
  | some _ =>
    if cookiesFileExists then
      match load_cookies_from_file cookieFile with
      | none =>
        (⟨"error", "Failed to load session from cookies.txt: Missing required cookies (sessionid, csrftoken) or invalid format.", []⟩, 0)
      | some _ =>
        match fetch with
        | FetchOutcome.ok post =>
          (⟨"success", "Media URLs extracted successfully.", mediaUrlsOf post⟩, 1)
        | FetchOutcome.loginRequired =>
          (⟨"error", "Login required! This post may be private or requires authentication. Provide a valid " ++ cookies_file ++ " with active session cookies.", []⟩, 1)
        | FetchOutcome.badResponse bre =>
          (⟨"error", "Instagram blocked the request (403 Forbidden): " ++ bre ++ ". Ensure " ++ cookies_file ++ " contains valid, non-expired session cookies.", []⟩, 1)
        | FetchOutcome.connError ce =>
          (⟨"error", "Oops! Something went wrong: " ++ ce ++ ". Check your internet connection, URL, cookies file, or try again later.", []⟩, 1)
        | FetchOutcome.otherError e =>
          (⟨"error", "Oops! Something went wrong: " ++ e ++ ". Check your internet connection, URL, cookies file, or try again later.", []⟩, 1)
    else
      (⟨"error", "Cookies file not found at " ++ ospathJoin scriptDir cookies_file ++ ". Ensure " ++ cookies_file ++ " exists with valid Instagram cookies in Netscape format.", []⟩, 0)

/- ### Download mode: src/test.py lines 51-136, `download_instagram_post` -/

/-- Outcome of one iteration of the retry loop (the
`Post.from_shortcode` + `loader.download_post` network step).  On success it
carries the directory listing of `save_dir` at enumeration time. -/
inductive StepOutcome where
  | ok : List String → StepOutcome
  | connError : String → StepOutcome
  | badResponse : String → StepOutcome
  | loginRequired : StepOutcome
  | otherError : String → StepOutcome

structure DlResult where
  status : String
  message : String
  files : List String
deriving DecidableEq

/-- The `for attempt in range(max_retries + 1)` loop of src/test.py lines
110-129.  `remaining` is the number of loop iterations the range still
allows; the second component counts network attempts.  `none` models the
Python function falling off the loop without a `return` (which would return
`None`); inner `except` clauses catch only `ConnectionException` and
`BadResponseException`, so `loginRequired` and `otherError` reach the outer
handlers of lines 131-136. -/
def downloadLoop (shortcode : List Char) (save_dir cookies_file : String) (max_retries : Nat)
    (step : Nat → StepOutcome) : Nat → Nat → Option DlResult × Nat
  | _, 0 => (none, 0)
  | attempt, _remaining + 1 =>
    match step attempt with
    | StepOutcome.ok listing =>
      (some ⟨"success", "Download complete! Files saved in " ++ save_dir ++ ".",
        (listing.filter (fun f => shortcode.isPrefixOf f.toList)).map (fun f => ospathJoin save_dir f)⟩, 1)
    | StepOutcome.connError ce =>
      if attempt < max_retries then
        ((downloadLoop shortcode save_dir cookies_file max_retries step (attempt + 1) _remaining).1,
         (downloadLoop shortcode save_dir cookies_file max_retries step (attempt + 1) _remaining).2 + 1)
      else
        (some ⟨"error", "Failed after " ++ toString max_retries ++ " retries: " ++ ce ++ ".", []⟩, 1)
    | StepOutcome.badResponse bre =>
      (some ⟨"error", "Instagram blocked the request (403 Forbidden): " ++ bre ++ ". Ensure " ++ cookies_file ++ " contains valid, non-expired session cookies.", []⟩, 1)
    | StepOutcome.loginRequired =>
      (some ⟨"error", "Login required! This post may be private or requires authentication. Provide a valid " ++ cookies_file ++ " with active session cookies.", []⟩, 1)
    | StepOutcome.otherError e =>
      (some ⟨"error", "Oops! Something went wrong: " ++ e ++ ". Check your internet connection, URL, cookies file, or try again later.", []⟩, 1)

/-- src/test.py lines 51-136, `download_instagram_post`.  The second
component counts network attempts. -/
def download_instagram_post (url save_dir cookies_file : String) (max_retries : Nat)
    (scriptDir : String) (cookiesFileExists : Bool) (cookieFile : CookieFile)
    (step : Nat → StepOutcome) : Option DlResult × Nat :=
  match validate_url url.toList with
  | none =>
    (some ⟨"error", "Invalid Instagram URL! Please ensure it contains a valid post code (e.g., instagram.com/p/XXXXX).", []⟩, 0)
  | some sc =>
    if cookiesFileExists then
      match load_cookies_from_file cookieFile with
      | none =>
        (some ⟨"error", "Failed to load session from cookies.txt: Missing required cookies (sessionid, csrftoken) or invalid format.", []⟩, 0)
      | some _ =>
        downloadLoop sc save_dir cookies_file max_retries step 0 (max_retries + 1)
    else
      (some ⟨"error", "Cookies file not found at " ++ ospathJoin scriptDir cookies_file ++ ". Ensure " ++ cookies_file ++ " exists with valid Instagram cookies in Netscape format.", []⟩, 0)

/- ### HTTP endpoint: src/api.py lines 235-259, `download_post`

The parsed JSON request body (`request.get_json()`) is `none` for a Python
`None` and otherwise a JSON value.  Python truthiness, the `in` membership
test, subscription and `.strip()` are embedded with their exception
behaviour: `in` on a non-container raises `TypeError`, subscription of a
list or string by a string raises `TypeError`, and `.strip()` on a
non-string raises `AttributeError`. -/

inductive JVal where
  | null : JVal
  | bool : Bool → JVal
  | num : Int → JVal
  | str : String → JVal
  | arr : List JVal → JVal
  | obj : List (String × JVal) → JVal

/-- Python truthiness of a decoded JSON value (`not data`). -/
def jTruthy : JVal → Bool
  | JVal.null => false
  | JVal.bool b => b
  | JVal.num n => n != 0
  | JVal.str s => !(s == "")
  | JVal.arr xs => !xs.isEmpty
  | JVal.obj fs => !fs.isEmpty

/-- Python substring membership `needle in hay` on strings. -/
def containsSub (needle : List Char) : List Char → Bool
  | [] => needle.isEmpty
  | c :: t => needle.isPrefixOf (c :: t) || containsSub needle t

/-- Python `"url" in data`; `none` models a raised `TypeError` (membership
test on a non-container such as a number or boolean). -/
def jHasUrl : JVal → Option Bool
  | JVal.obj fs => some (fs.any (fun kv => kv.1 == "url"))
  | JVal.arr xs =>
    some (xs.any (fun v => match v with | JVal.str s => s == "url" | _ => false))
  | JVal.str s => some (containsSub "url".toList s.toList)
  | _ => none

/-- Python `data["url"]`; `none` models a raised `TypeError` (subscripting a
list or a string by a string).  Only reached when `jHasUrl` returned
`some true`, so the object lookup cannot miss. -/
def jGetUrl : JVal → Option JVal
  | JVal.obj fs => (fs.find? (fun kv => kv.1 == "url")).map (fun kv => kv.2)
  | _ => none

/-- The body of a response this endpoint can produce: either the two-field
`jsonify({"status": ..., "message": ...})` of the request-validation
branches, or the orchestrator's result relayed verbatim. -/
inductive RespBody where
  | statusMsg : String → String → RespBody
  | full : UrlsResult → RespBody
deriving DecidableEq

/-- What one call of the Flask handler does: a response with an HTTP status
code, or an exception escaping uncaught (the framework would then produce a
generic 500). -/
inductive HandlerOutcome where
  | resp : RespBody → Nat → HandlerOutcome
  | raise : String → HandlerOutcome
deriving DecidableEq

/-- src/api.py lines 235-259, `download_post`.  `orch` is
`get_instagram_post_urls` applied to the default cookie path; the second
component counts orchestrator invocations. -/
def download_post (data : Option JVal) (orch : String → UrlsResult) :
    HandlerOutcome × Nat :=
  match data with
  | none =>
    (HandlerOutcome.resp (RespBody.statusMsg "error" "Invalid request. Please provide a JSON payload with a 'url' field.") 400, 0)
  | some d =>
    if jTruthy d then
      match jHasUrl d with
      | none => (HandlerOutcome.raise "TypeError", 0)
      | some false =>
        (HandlerOutcome.resp (RespBody.statusMsg "error" "Invalid request. Please provide a JSON payload with a 'url' field.") 400, 0)
      | some true =>
        match jGetUrl d with
        | none => (HandlerOutcome.raise "TypeError", 0)
        | some (JVal.str s) =>
          if s.trim == "" then
            (HandlerOutcome.resp (RespBody.statusMsg "error" "URL cannot be empty.") 400, 0)
          else
            (HandlerOutcome.resp (RespBody.full (orch s.trim))
              (if (orch s.trim).status = "success" then 200 else 400), 1)
        | some _ => (HandlerOutcome.raise "AttributeError", 0)
    else
      (HandlerOutcome.resp (RespBody.statusMsg "error" "Invalid request. Please provide a JSON payload with a 'url' field.") 400, 0)

/- ### Concrete sample inputs used by witnesses and counterexamples -/

/-- A cookie file holding both required cookies on the exact domain. -/
def goodCookieFile : CookieFile :=
  CookieFile.records
    [⟨"sessionid", "sid", ".instagram.com", "/"⟩, ⟨"csrftoken", "csrf", ".instagram.com", "/"⟩]

/-- A three-child gallery post with declared order image, video, image. -/
def samplePost : Post :=
  { is_video := false, video_url := "pv", url := "pd", typename := "GraphSidecar",
    sidecar_nodes := [⟨false, "v1", "d1"⟩, ⟨true, "v2", "d2"⟩, ⟨false, "v3", "d3"⟩] }

/-- Every network attempt fails with a transient connection error. -/
def sampleStep : Nat → StepOutcome := fun _ => StepOutcome.connError "reset"

/-- The first attempt succeeds; the directory listing at enumeration time
holds two files starting with the shortcode `ABC` (one of them pre-existing)
and an unrelated file. -/
def sampleOkStep : Nat → StepOutcome :=
  fun _ => StepOutcome.ok ["ABC.jpg", "other.txt", "ABC_old.jpg"]

/-- A URL with text before the domain, a second occurrence of the pattern,
and a query string after the shortcode. -/
def c3url : List Char := "see instagram.com/p/AbC-1_x/?hl=en also instagram.com/p/zzz".toList

/-- The return contract of the urls-only orchestrator: a status tag from
the two-value set, and every error result carries a non-empty message and
an empty media payload. -/
def urlsResultOk (r : UrlsResult) : Prop :=
  (r.status = "success" ∨ r.status = "error") ∧
    (r.status = "error" → r.message ≠ "" ∧ r.media_urls = [])

/-- The return contract of the download orchestrator. -/
def dlResultOk (r : DlResult) : Prop :=
  (r.status = "success" ∨ r.status = "error") ∧
    (r.status = "error" → r.message ≠ "" ∧ r.files = [])

/- ### Helper lemmas -/

theorem str_append_ne_empty (s t : String) (h : s ≠ "") : s ++ t ≠ "" := by
  intro hc
  apply h
  have hdata : (s ++ t).data = ("" : String).data := congrArg String.data hc
  have : s.data ++ t.data = [] := hdata
  cases s with
  | mk d =>
    cases d with
    | nil => rfl
    | cons a l => simp at this

theorem occurs_nil (i : Nat) : shortcodeOccursAt [] i = false := by
  unfold shortcodeOccursAt
  rw [List.drop_nil, List.drop_nil]
  decide

theorem occurs_succ (c : Char) (t : List Char) (i : Nat) :
    shortcodeOccursAt (c :: t) (i + 1) = shortcodeOccursAt t i := by
  unfold shortcodeOccursAt
  have h1 : (c :: t).drop (i + 1) = t.drop i := rfl
  have h2 : (c :: t).drop (i + 1 + igPat.length) = t.drop (i + igPat.length) := by
    rw [Nat.add_right_comm i 1 igPat.length, List.drop_succ_cons]
  rw [h1, h2]

theorem shortcodeAt_succ (c : Char) (t : List Char) (i : Nat) :
    shortcodeAt (c :: t) (i + 1) = shortcodeAt t i := by
  unfold shortcodeAt
  rw [Nat.add_right_comm i 1 igPat.length, List.drop_succ_cons]

theorem matchAt_eq (s : List Char) :
    matchAt s = if shortcodeOccursAt s 0 then some (shortcodeAt s 0) else none := by
  unfold matchAt shortcodeOccursAt shortcodeAt
  rw [Nat.zero_add]
  by_cases h1 : igPat.isPrefixOf s <;>
    by_cases h2 : ((s.drop igPat.length).takeWhile isShortcodeChar).isEmpty <;>
      simp [h1, h2]

/-- C3 -/
theorem validate_url_leftmost (s : List Char) :
    ((∀ i, i < s.length → shortcodeOccursAt s i = false) → validate_url s = none) ∧
    (∀ i, shortcodeOccursAt s i = true → (∀ j, j < i → shortcodeOccursAt s j = false) →
      validate_url s = some (shortcodeAt s i)) := by
  induction s with
  | nil =>
    constructor
    · intro _; rfl
    · intro i hi _
      rw [occurs_nil] at hi
      exact absurd hi (by simp)
  | cons c t ih =>
    constructor
    · intro h
      have h0 : shortcodeOccursAt (c :: t) 0 = false := h 0 (Nat.succ_pos _)
      have hrest : validate_url t = none := ih.1 (fun i hi => by
        have := h (i + 1) (Nat.succ_lt_succ hi)
        rwa [occurs_succ] at this)
      simp [validate_url, matchAt_eq, h0, hrest]
    · intro i hi hmin
      cases i with
      | zero =>
        simp [validate_url, matchAt_eq, hi]
      | succ j =>
        have h0 : shortcodeOccursAt (c :: t) 0 = false := hmin 0 (Nat.succ_pos _)
        have hj : shortcodeOccursAt t j = true := by rwa [occurs_succ] at hi
        have hminj : ∀ k, k < j → shortcodeOccursAt t k = false := fun k hk => by
          have := hmin (k + 1) (Nat.succ_lt_succ hk)
          rwa [occurs_succ] at this
        have hres := ih.2 j hj hminj
        simp [validate_url, matchAt_eq, h0, hres, shortcodeAt_succ]

theorem validate_url_leftmost_witness :
    shortcodeOccursAt c3url 4 = true ∧ validate_url c3url = some "AbC-1_x".toList :=
  ⟨by decide, (validate_url_leftmost c3url).2 4 (by decide) (by decide)⟩

theorem insertCookie_sessionid (d : CookieDict) (c : CookieRec) :
    (insertCookie d c).sessionid =
      if c.name = "sessionid" ∧ c.domain = ".instagram.com" then some c.value
      else d.sessionid := by
  unfold insertCookie
  by_cases h1 : c.name = "sessionid"
  · by_cases h2 : c.domain = ".instagram.com" <;> simp [h1, h2]
  · by_cases h2 : c.name = "csrftoken" <;> by_cases h3 : c.domain = ".instagram.com" <;>
      simp [h1, h2, h3]

theorem insertCookie_csrftoken (d : CookieDict) (c : CookieRec) :
    (insertCookie d c).csrftoken =
      if c.name = "csrftoken" ∧ c.domain = ".instagram.com" then some c.value
      else d.csrftoken := by
  unfold insertCookie
  by_cases h1 : c.name = "sessionid"
  · have hne : ¬c.name = "csrftoken" := by rw [h1]; decide
    by_cases h2 : c.domain = ".instagram.com" <;> simp [h1, h2, hne]
  · by_cases h2 : c.name = "csrftoken" <;> by_cases h3 : c.domain = ".instagram.com" <;>
      simp [h1, h2, h3]

theorem foldl_insertCookie_sessionid (rs : List CookieRec) (d : CookieDict) :
    (rs.foldl insertCookie d).sessionid =
      match lastMatchingValue "sessionid" rs with
      | some v => some v
      | none => d.sessionid := by
  induction rs generalizing d with
  | nil => rfl
  | cons c t ih =>
    rw [List.foldl_cons, ih]
    have hcons : lastMatchingValue "sessionid" (c :: t) =
        match lastMatchingValue "sessionid" t with
        | some v => some v
        | none =>
          if c.name = "sessionid" ∧ c.domain = ".instagram.com" then some c.value
          else none := rfl
    rw [hcons]
    cases hT : lastMatchingValue "sessionid" t with
    | some v => rfl
    | none =>
      simp only
      rw [insertCookie_sessionid]
      by_cases h : c.name = "sessionid" ∧ c.domain = ".instagram.com" <;> simp [h]

theorem foldl_insertCookie_csrftoken (rs : List CookieRec) (d : CookieDict) :
    (rs.foldl insertCookie d).csrftoken =
      match lastMatchingValue "csrftoken" rs with
      | some v => some v
      | none => d.csrftoken := by
  induction rs generalizing d with
  | nil => rfl
  | cons c t ih =>
    rw [List.foldl_cons, ih]
    have hcons : lastMatchingValue "csrftoken" (c :: t) =
        match lastMatchingValue "csrftoken" t with
        | some v => some v
        | none =>
          if c.name = "csrftoken" ∧ c.domain = ".instagram.com" then some c.value
          else none := rfl
    rw [hcons]
    cases hT : lastMatchingValue "csrftoken" t with
    | some v => rfl
    | none =>
      simp only
      rw [insertCookie_csrftoken]
      by_cases h : c.name = "csrftoken" ∧ c.domain = ".instagram.com" <;> simp [h]

theorem lastMatchingValue_isSome (name : String) (rs : List CookieRec) :
    (lastMatchingValue name rs).isSome = true ↔
      ∃ r ∈ rs, r.name = name ∧ r.domain = ".instagram.com" := by
  induction rs with
  | nil => simp [lastMatchingValue]
  | cons c t ih =>
    have hcons : lastMatchingValue name (c :: t) =
        match lastMatchingValue name t with
        | some v => some v
        | none =>
          if c.name = name ∧ c.domain = ".instagram.com" then some c.value
          else none := rfl
    rw [hcons]
    cases hT : lastMatchingValue name t with
    | some v =>
      simp only [Option.isSome_some, true_iff]
      obtain ⟨r, hr, hp⟩ := ih.mp (by rw [hT]; rfl)
      exact ⟨r, List.mem_cons_of_mem c hr, hp⟩
    | none =>
      rw [hT] at ih
      simp only [Option.isSome_none, Bool.false_eq_true, false_iff] at ih
      simp only
      by_cases h : c.name = name ∧ c.domain = ".instagram.com"
      · rw [if_pos h]
        simp only [Option.isSome_some, true_iff]
        exact ⟨c, List.mem_cons_self c t, h⟩
      · rw [if_neg h]
        simp only [Option.isSome_none, Bool.false_eq_true, false_iff]
        rintro ⟨r, hr, hp⟩
        rcases List.mem_cons.mp hr with he | ht
        · exact h (he ▸ hp)
        · exact ih ⟨r, ht, hp⟩

theorem mem_insertSorted (x y : String) (l : List String) :
    y ∈ insertSorted x l ↔ y = x ∨ y ∈ l := by
  induction l with
  | nil => simp [insertSorted]
  | cons a t ih =>
    unfold insertSorted
    by_cases h : charListLe x.data a.data
    · simp [h]
    · rw [if_neg h]
      simp only [List.mem_cons, ih]
      tauto

theorem mem_sortStrings (x : String) (l : List String) :
    x ∈ sortStrings l ↔ x ∈ l := by
  induction l with
  | nil => simp [sortStrings]
  | cons a t ih =>
    unfold sortStrings
    rw [mem_insertSorted, ih]
    simp [List.mem_cons]

theorem mem_dedupSeen (x : String) (l : List String) :
    ∀ seen, x ∈ dedupSeen seen l ↔ x ∈ l ∧ x ∉ seen := by
  induction l with
  | nil => intro seen; simp [dedupSeen]
  | cons a t ih =>
    intro seen
    unfold dedupSeen
    by_cases h : a ∈ seen
    · rw [if_pos h, ih seen]
      constructor
      · rintro ⟨hx, hs⟩
        exact ⟨List.mem_cons_of_mem a hx, hs⟩
      · rintro ⟨hx, hs⟩
        rcases List.mem_cons.mp hx with rfl | hx2
        · exact absurd h hs
        · exact ⟨hx2, hs⟩
    · rw [if_neg h]
      constructor
      · intro hx
        rcases List.mem_cons.mp hx with rfl | hx2
        · exact ⟨List.mem_cons_self x t, h⟩
        · rw [ih (a :: seen)] at hx2
          obtain ⟨hxt, hxs⟩ := hx2
          exact ⟨List.mem_cons_of_mem a hxt, fun hc => hxs (List.mem_cons_of_mem a hc)⟩
      · rintro ⟨hx, hs⟩
        rcases List.mem_cons.mp hx with rfl | hxt
        · exact List.mem_cons_self x _
        · by_cases hxa : x = a
          · rw [hxa]; exact List.mem_cons_self a _
          · refine List.mem_cons_of_mem a ?_
            rw [ih (a :: seen)]
            refine ⟨hxt, fun hc => ?_⟩
            rcases List.mem_cons.mp hc with h1 | h2
            · exact hxa h1
            · exact hs h2

theorem mem_dedupStrings (x : String) (l : List String) :
    x ∈ dedupStrings l ↔ x ∈ l := by
  unfold dedupStrings
  rw [mem_dedupSeen]
  simp

theorem lastWithKey_key (d p n : String) (l : List CookieRec) (r : CookieRec)
    (h : lastWithKey d p n l = some r) : r.domain = d ∧ r.path = p ∧ r.name = n := by
  induction l with
  | nil => simp [lastWithKey] at h
  | cons c t ih =>
    have hcons : lastWithKey d p n (c :: t) =
        match lastWithKey d p n t with
        | some r => some r
        | none => if c.domain = d ∧ c.path = p ∧ c.name = n then some c else none := rfl
    rw [hcons] at h
    cases hT : lastWithKey d p n t with
    | some r2 =>
      rw [hT] at h
      have h2 : some r2 = some r := h
      injection h2 with h3
      subst h3
      exact ih hT
    | none =>
      rw [hT] at h
      have h2 : (if c.domain = d ∧ c.path = p ∧ c.name = n then some c else none) = some r := h
      by_cases hc : c.domain = d ∧ c.path = p ∧ c.name = n
      · rw [if_pos hc] at h2
        injection h2 with h3
        subst h3
        exact hc
      · rw [if_neg hc] at h2
        simp at h2

theorem lastWithKey_mem (d p n : String) (l : List CookieRec) (r : CookieRec)
    (h : lastWithKey d p n l = some r) : r ∈ l := by
  induction l with
  | nil => simp [lastWithKey] at h
  | cons c t ih =>
    have hcons : lastWithKey d p n (c :: t) =
        match lastWithKey d p n t with
        | some r => some r
        | none => if c.domain = d ∧ c.path = p ∧ c.name = n then some c else none := rfl
    rw [hcons] at h
    cases hT : lastWithKey d p n t with
    | some r2 =>
      rw [hT] at h
      have h2 : some r2 = some r := h
      injection h2 with h3
      subst h3
      exact List.mem_cons_of_mem c (ih hT)
    | none =>
      rw [hT] at h
      have h2 : (if c.domain = d ∧ c.path = p ∧ c.name = n then some c else none) = some r := h
      by_cases hc : c.domain = d ∧ c.path = p ∧ c.name = n
      · rw [if_pos hc] at h2
        injection h2 with h3
        subst h3
        exact List.mem_cons_self c t
      · rw [if_neg hc] at h2
        simp at h2

theorem lastWithKey_isSome (d p n : String) (l : List CookieRec) :
    (lastWithKey d p n l).isSome = true ↔
      ∃ c ∈ l, c.domain = d ∧ c.path = p ∧ c.name = n := by
  induction l with
  | nil => simp [lastWithKey]
  | cons c t ih =>
    have hcons : lastWithKey d p n (c :: t) =
        match lastWithKey d p n t with
        | some r => some r
        | none => if c.domain = d ∧ c.path = p ∧ c.name = n then some c else none := rfl
    rw [hcons]
    cases hT : lastWithKey d p n t with
    | some r2 =>
      simp only [Option.isSome_some, true_iff]
      obtain ⟨r, hr, hp⟩ := ih.mp (by rw [hT]; rfl)
      exact ⟨r, List.mem_cons_of_mem c hr, hp⟩
    | none =>
      rw [hT] at ih
      simp only [Option.isSome_none, Bool.false_eq_true, false_iff] at ih
      simp only
      by_cases h : c.domain = d ∧ c.path = p ∧ c.name = n
      · rw [if_pos h]
        simp only [Option.isSome_some, true_iff]
        exact ⟨c, List.mem_cons_self c t, h⟩
      · rw [if_neg h]
        simp only [Option.isSome_none, Bool.false_eq_true, false_iff]
        rintro ⟨r, hr, hp⟩
        rcases List.mem_cons.mp hr with he | ht
        · exact h (he ▸ hp)
        · exact ih ⟨r, ht, hp⟩

theorem jarIterate_elim (rs : List CookieRec) (e : CookieRec) (h : e ∈ jarIterate rs) :
    ∃ d p n, lastWithKey d p n rs = some e := by
  unfold jarIterate at h
  rw [List.mem_flatMap] at h
  obtain ⟨d, _, h⟩ := h
  rw [List.mem_flatMap] at h
  obtain ⟨p, _, h⟩ := h
  rw [List.mem_filterMap] at h
  obtain ⟨n, _, h⟩ := h
  exact ⟨d, p, n, h⟩

theorem jarIterate_subset (rs : List CookieRec) (e : CookieRec) (h : e ∈ jarIterate rs) :
    e ∈ rs := by
  obtain ⟨d, p, n, hk⟩ := jarIterate_elim rs e h
  exact lastWithKey_mem d p n rs e hk

theorem jarIterate_presence (rs : List CookieRec) (n D : String)
    (h : ∃ r ∈ rs, r.name = n ∧ r.domain = D) :
    ∃ e ∈ jarIterate rs, e.name = n ∧ e.domain = D := by
  obtain ⟨r, hr, hn, hd⟩ := h
  have hks : (lastWithKey D r.path n rs).isSome = true :=
    (lastWithKey_isSome D r.path n rs).mpr ⟨r, hr, hd, rfl, hn⟩
  obtain ⟨e, he⟩ := Option.isSome_iff_exists.mp hks
  have hkey := lastWithKey_key D r.path n rs e he
  refine ⟨e, ?_, hkey.2.2, hkey.1⟩
  unfold jarIterate
  rw [List.mem_flatMap]
  refine ⟨D, ?_, ?_⟩
  · rw [mem_sortStrings, mem_dedupStrings, List.mem_map]
    exact ⟨r, hr, hd⟩
  rw [List.mem_flatMap]
  refine ⟨r.path, ?_, ?_⟩
  · rw [mem_sortStrings, mem_dedupStrings, List.mem_map]
    refine ⟨r, ?_, rfl⟩
    rw [List.mem_filter]
    exact ⟨hr, by simp [hd]⟩
  rw [List.mem_filterMap]
  refine ⟨n, ?_, he⟩
  rw [mem_sortStrings, mem_dedupStrings, List.mem_map]
  refine ⟨r, ?_, hn⟩
  rw [List.mem_filter]
  refine ⟨hr, ?_⟩
  simp [hd]

/-- C4 -/
theorem load_cookies_iff (f : CookieFile) :
    (∃ s c, load_cookies_from_file f = some (s, c)) ↔
      ∃ rs, f = CookieFile.records rs ∧
        (∃ r ∈ rs, r.name = "sessionid" ∧ r.domain = ".instagram.com") ∧
        (∃ r ∈ rs, r.name = "csrftoken" ∧ r.domain = ".instagram.com") := by
  cases f with
  | malformed => simp [load_cookies_from_file]
  | records rs =>
    have hload : load_cookies_from_file (CookieFile.records rs) =
        match lastMatchingValue "sessionid" (jarIterate rs),
              lastMatchingValue "csrftoken" (jarIterate rs) with
        | some s, some c => some (s, c)
        | _, _ => none := by
      have hdef : load_cookies_from_file (CookieFile.records rs) =
          match ((jarIterate rs).foldl insertCookie emptyCookieDict).sessionid,
                ((jarIterate rs).foldl insertCookie emptyCookieDict).csrftoken with
          | some s, some c => some (s, c)
          | _, _ => none := rfl
      rw [hdef, foldl_insertCookie_sessionid, foldl_insertCookie_csrftoken]
      cases lastMatchingValue "sessionid" (jarIterate rs) <;>
        cases lastMatchingValue "csrftoken" (jarIterate rs) <;> rfl
    have hpres : ∀ m : String, ((lastMatchingValue m (jarIterate rs)).isSome = true) ↔
        ∃ r ∈ rs, r.name = m ∧ r.domain = ".instagram.com" := by
      intro m
      rw [lastMatchingValue_isSome]
      constructor
      · rintro ⟨e, he, hm⟩
        exact ⟨e, jarIterate_subset rs e he, hm⟩
      · exact jarIterate_presence rs m ".instagram.com"
    rw [hload]
    constructor
    · rintro ⟨s, c, hsc⟩
      cases hS : lastMatchingValue "sessionid" (jarIterate rs) with
      | none =>
        rw [hS] at hsc
        cases hC : lastMatchingValue "csrftoken" (jarIterate rs) <;> rw [hC] at hsc <;>
          simp at hsc
      | some sv =>
        cases hC : lastMatchingValue "csrftoken" (jarIterate rs) with
        | none => rw [hS, hC] at hsc; simp at hsc
        | some cv =>
          refine ⟨rs, rfl, ?_, ?_⟩
          · exact (hpres "sessionid").mp (by rw [hS]; rfl)
          · exact (hpres "csrftoken").mp (by rw [hC]; rfl)
    · rintro ⟨rs2, he, h1, h2⟩
      injection he with he2
      subst he2
      obtain ⟨sv, hS⟩ := Option.isSome_iff_exists.mp ((hpres "sessionid").mpr h1)
      obtain ⟨cv, hC⟩ := Option.isSome_iff_exists.mp ((hpres "csrftoken").mpr h2)
      rw [hS, hC]
      exact ⟨sv, cv, rfl⟩

/-- C1 counterexample: on the three-child gallery `samplePost` (declared
order image, video, image) the urls-only payload is not the 3-element
sequence of child URLs the claim predicts, and its length is not 3. -/
theorem gallery_payload_counterexample :
    (get_instagram_post_urls "instagram.com/p/ABC" "cookies/cookies.txt" "/srv" true
        goodCookieFile (FetchOutcome.ok samplePost)).1.media_urls ≠ ["d1", "v2", "d3"] ∧
    (get_instagram_post_urls "instagram.com/p/ABC" "cookies/cookies.txt" "/srv" true
        goodCookieFile (FetchOutcome.ok samplePost)).1.media_urls.length ≠
      samplePost.sidecar_nodes.length := by
  decide

/-- C1 (amended): for a successfully resolved `GraphSidecar` post the
urls-only payload is the post's own URL (video URL if the post is a video,
else its display URL) followed by one entry per sidecar child in declared
order, video URL for video children and display URL for image children:
`N + 1` elements for `N` children. -/
theorem gallery_payload (url cookies_file scriptDir : String) (cf : CookieFile)
    (post : Post) (sc : List Char) (ck : String × String)
    (hv : validate_url url.toList = some sc)
    (hl : load_cookies_from_file cf = some ck)
    (hs : post.typename = "GraphSidecar") :
    (get_instagram_post_urls url cookies_file scriptDir true cf (FetchOutcome.ok post)).1 =
      ⟨"success", "Media URLs extracted successfully.",
        (if post.is_video then post.video_url else post.url) ::
          post.sidecar_nodes.map (fun n => if n.is_video then n.video_url else n.display_url)⟩ ∧
    (get_instagram_post_urls url cookies_file scriptDir true cf
        (FetchOutcome.ok post)).1.media_urls.length = post.sidecar_nodes.length + 1 := by
  have hres : (get_instagram_post_urls url cookies_file scriptDir true cf
      (FetchOutcome.ok post)).1 =
      ⟨"success", "Media URLs extracted successfully.", mediaUrlsOf post⟩ := by
    have hv2 : validate_url url.data = some sc := hv
    simp [get_instagram_post_urls, hv2, hl]
  have hurls : mediaUrlsOf post =
      (if post.is_video then post.video_url else post.url) ::
        post.sidecar_nodes.map (fun n => if n.is_video then n.video_url else n.display_url) := by
    unfold mediaUrlsOf
    rw [if_pos hs]
    by_cases h : post.is_video <;> simp [h]
  refine ⟨by rw [hres, hurls], ?_⟩
  rw [hres, hurls]
  simp

theorem gallery_payload_witness :
    (get_instagram_post_urls "instagram.com/p/ABC" "cookies/cookies.txt" "/srv" true
        goodCookieFile (FetchOutcome.ok samplePost)).1 =
      ⟨"success", "Media URLs extracted successfully.", ["pd", "d1", "v2", "d3"]⟩ ∧
    (get_instagram_post_urls "instagram.com/p/ABC" "cookies/cookies.txt" "/srv" true
        goodCookieFile (FetchOutcome.ok samplePost)).1.media_urls.length = 4 :=
  gallery_payload "instagram.com/p/ABC" "cookies/cookies.txt" "/srv" goodCookieFile
    samplePost "ABC".toList ("sid", "csrf") (by decide) (by decide) rfl

theorem urlsResultOk_error (m : String) (h : m ≠ "") : urlsResultOk ⟨"error", m, []⟩ :=
  ⟨Or.inr rfl, fun _ => ⟨h, rfl⟩⟩

theorem urlsResultOk_success (m : String) (urls : List String) :
    urlsResultOk ⟨"success", m, urls⟩ :=
  ⟨Or.inl rfl, fun h => absurd h (show ("success" : String) ≠ "error" from by decide)⟩

theorem dlResultOk_error (m : String) (h : m ≠ "") : dlResultOk ⟨"error", m, []⟩ :=
  ⟨Or.inr rfl, fun _ => ⟨h, rfl⟩⟩

theorem dlResultOk_success (m : String) (fs : List String) : dlResultOk ⟨"success", m, fs⟩ :=
  ⟨Or.inl rfl, fun h => absurd h (show ("success" : String) ≠ "error" from by decide)⟩

theorem downloadLoop_total (sc : List Char) (save_dir cookies_file : String) (mr : Nat)
    (step : Nat → StepOutcome) :
    ∀ remaining attempt, attempt + remaining = mr + 1 → attempt ≤ mr →
      ∃ r, (downloadLoop sc save_dir cookies_file mr step attempt remaining).1 = some r ∧
        dlResultOk r := by
  intro remaining
  induction remaining with
  | zero => intro attempt h1 h2; omega
  | succ rem ih =>
    intro attempt h1 h2
    cases hstep : step attempt with
    | ok listing =>
      refine ⟨⟨"success", "Download complete! Files saved in " ++ save_dir ++ ".",
        (listing.filter (fun f => sc.isPrefixOf f.toList)).map (fun f => ospathJoin save_dir f)⟩,
        ?_, dlResultOk_success _ _⟩
      unfold downloadLoop
      rw [hstep]
    | connError ce =>
      by_cases hlt : attempt < mr
      · obtain ⟨r, hr, hok⟩ := ih (attempt + 1) (by omega) (by omega)
        refine ⟨r, ?_, hok⟩
        simp only [downloadLoop, hstep, if_pos hlt]
        exact hr
      · refine ⟨⟨"error", "Failed after " ++ toString mr ++ " retries: " ++ ce ++ ".", []⟩, ?_,
          dlResultOk_error _ (by repeat' first | decide | apply str_append_ne_empty)⟩
        simp only [downloadLoop, hstep, if_neg hlt]
    | badResponse bre =>
      refine ⟨⟨"error", "Instagram blocked the request (403 Forbidden): " ++ bre ++ ". Ensure " ++
          cookies_file ++ " contains valid, non-expired session cookies.", []⟩, ?_,
        dlResultOk_error _ (by repeat' first | decide | apply str_append_ne_empty)⟩
      unfold downloadLoop
      rw [hstep]
    | loginRequired =>
      refine ⟨⟨"error", "Login required! This post may be private or requires authentication. Provide a valid " ++
          cookies_file ++ " with active session cookies.", []⟩, ?_,
        dlResultOk_error _ (by repeat' first | decide | apply str_append_ne_empty)⟩
      unfold downloadLoop
      rw [hstep]
    | otherError e =>
      refine ⟨⟨"error", "Oops! Something went wrong: " ++ e ++
          ". Check your internet connection, URL, cookies file, or try again later.", []⟩, ?_,
        dlResultOk_error _ (by repeat' first | decide | apply str_append_ne_empty)⟩
      unfold downloadLoop
      rw [hstep]

/-- C5 -/
theorem operation_result_contract (url save_dir cookies_file scriptDir : String)
    (fe : Bool) (cf : CookieFile) (fetch : FetchOutcome) (mr : Nat)
    (step : Nat → StepOutcome) :
    urlsResultOk (get_instagram_post_urls url cookies_file scriptDir fe cf fetch).1 ∧
    ∃ r, (download_instagram_post url save_dir cookies_file mr scriptDir fe cf step).1 = some r ∧
      dlResultOk r := by
  constructor
  · unfold get_instagram_post_urls
    cases hv : validate_url url.toList with
    | none => exact urlsResultOk_error _ (by decide)
    | some sc =>
      cases fe with
      | false =>
        exact urlsResultOk_error _ (by repeat' first | decide | apply str_append_ne_empty)
      | true =>
        cases hl : load_cookies_from_file cf with
        | none => exact urlsResultOk_error _ (by decide)
        | some ck =>
          cases fetch with
          | ok post => exact urlsResultOk_success _ _
          | loginRequired =>
            exact urlsResultOk_error _ (by repeat' first | decide | apply str_append_ne_empty)
          | badResponse bre =>
            exact urlsResultOk_error _ (by repeat' first | decide | apply str_append_ne_empty)
          | connError ce =>
            exact urlsResultOk_error _ (by repeat' first | decide | apply str_append_ne_empty)
          | otherError e =>
            exact urlsResultOk_error _ (by repeat' first | decide | apply str_append_ne_empty)
  · unfold download_instagram_post
    cases hv : validate_url url.toList with
    | none => exact ⟨_, rfl, dlResultOk_error _ (by decide)⟩
    | some sc =>
      cases fe with
      | false =>
        exact ⟨_, rfl, dlResultOk_error _ (by repeat' first | decide | apply str_append_ne_empty)⟩
      | true =>
        cases hl : load_cookies_from_file cf with
        | none => exact ⟨_, rfl, dlResultOk_error _ (by decide)⟩
        | some ck =>
          exact downloadLoop_total sc save_dir cookies_file mr step (mr + 1) 0 (by omega) (by omega)

/-- C2 -/
theorem retry_policy (url save_dir cookies_file scriptDir : String)
    (cf : CookieFile) (step : Nat → StepOutcome) (sc : List Char) (ck : String × String)
    (hv : validate_url url.toList = some sc)
    (hl : load_cookies_from_file cf = some ck) :
    ((∀ a, a < 3 → ∃ m, step a = StepOutcome.connError m) →
      ∃ m, step 2 = StepOutcome.connError m ∧
        download_instagram_post url save_dir cookies_file 2 scriptDir true cf step =
          (some ⟨"error", "Failed after " ++ toString 2 ++ " retries: " ++ m ++ ".", []⟩, 3)) ∧
    (∀ k, k < 3 → (∀ a, a < k → ∃ m, step a = StepOutcome.connError m) →
      ∀ m, step k = StepOutcome.badResponse m →
        download_instagram_post url save_dir cookies_file 2 scriptDir true cf step =
          (some ⟨"error", "Instagram blocked the request (403 Forbidden): " ++ m ++ ". Ensure " ++
            cookies_file ++ " contains valid, non-expired session cookies.", []⟩, k + 1)) ∧
    (∀ fetch : FetchOutcome,
      (get_instagram_post_urls url cookies_file scriptDir true cf fetch).2 ≤ 1) := by
  refine ⟨?_, ?_, ?_⟩
  · intro hconn
    obtain ⟨m0, h0⟩ := hconn 0 (by omega)
    obtain ⟨m1, h1⟩ := hconn 1 (by omega)
    obtain ⟨m2, h2⟩ := hconn 2 (by omega)
    refine ⟨m2, h2, ?_⟩
    unfold download_instagram_post
    rw [hv]
    simp only [downloadLoop, hl, h0, h1, h2, if_true]
    norm_num
  · intro k hk hconn m hbad
    unfold download_instagram_post
    rw [hv]
    interval_cases k
    · simp only [downloadLoop, hl, hbad, if_true]
    · obtain ⟨m0, h0⟩ := hconn 0 (by omega)
      simp only [downloadLoop, hl, h0, hbad, if_true]
      norm_num
    · obtain ⟨m0, h0⟩ := hconn 0 (by omega)
      obtain ⟨m1, h1⟩ := hconn 1 (by omega)
      simp only [downloadLoop, hl, h0, h1, hbad, if_true]
      norm_num
  · intro fetch
    unfold get_instagram_post_urls
    rw [hv]
    simp only [hl, if_true]
    cases fetch <;> simp

theorem retry_policy_witness :
    ∃ m, sampleStep 2 = StepOutcome.connError m ∧
      download_instagram_post "instagram.com/p/ABC" "downloads" "cookies/cookies.txt" 2 "/srv"
          true goodCookieFile sampleStep =
        (some ⟨"error", "Failed after " ++ toString 2 ++ " retries: " ++ m ++ ".", []⟩, 3) :=
  (retry_policy "instagram.com/p/ABC" "downloads" "cookies/cookies.txt" "/srv" goodCookieFile
      sampleStep "ABC".toList ("sid", "csrf") (by decide) (by decide)).1
    (fun a _ => ⟨"reset", rfl⟩)

/-- C8 -/
theorem local_failures_no_network (url save_dir cookies_file scriptDir : String)
    (cf : CookieFile) (fetch : FetchOutcome) (mr : Nat) (step : Nat → StepOutcome) (fe : Bool) :
    (validate_url url.toList = none →
      (get_instagram_post_urls url cookies_file scriptDir fe cf fetch).2 = 0 ∧
      (get_instagram_post_urls url cookies_file scriptDir fe cf fetch).1.status = "error" ∧
      (download_instagram_post url save_dir cookies_file mr scriptDir fe cf step).2 = 0 ∧
      (download_instagram_post url save_dir cookies_file mr scriptDir fe cf step).1 =
        some ⟨"error", "Invalid Instagram URL! Please ensure it contains a valid post code (e.g., instagram.com/p/XXXXX).", []⟩) ∧
    ((validate_url url.toList).isSome →
      (get_instagram_post_urls url cookies_file scriptDir false cf fetch).2 = 0 ∧
      (get_instagram_post_urls url cookies_file scriptDir false cf fetch).1.status = "error" ∧
      (∃ a b, (get_instagram_post_urls url cookies_file scriptDir false cf fetch).1.message =
        a ++ ospathJoin scriptDir cookies_file ++ b) ∧
      (download_instagram_post url save_dir cookies_file mr scriptDir false cf step).2 = 0 ∧
      (∃ r, (download_instagram_post url save_dir cookies_file mr scriptDir false cf step).1 =
        some r ∧ r.status = "error" ∧
          ∃ a b, r.message = a ++ ospathJoin scriptDir cookies_file ++ b)) ∧
    ((validate_url url.toList).isSome → load_cookies_from_file cf = none →
      (get_instagram_post_urls url cookies_file scriptDir true cf fetch).2 = 0 ∧
      (get_instagram_post_urls url cookies_file scriptDir true cf fetch).1.status = "error" ∧
      (download_instagram_post url save_dir cookies_file mr scriptDir true cf step).2 = 0 ∧
      (download_instagram_post url save_dir cookies_file mr scriptDir true cf step).1 =
        some ⟨"error", "Failed to load session from cookies.txt: Missing required cookies (sessionid, csrftoken) or invalid format.", []⟩) := by
  refine ⟨?_, ?_, ?_⟩
  · intro hv
    unfold get_instagram_post_urls download_instagram_post
    rw [hv]
    refine ⟨?_, ?_, ?_, ?_⟩ <;> trivial
  · intro hv
    obtain ⟨sc, hsc⟩ := Option.isSome_iff_exists.mp hv
    unfold get_instagram_post_urls download_instagram_post
    rw [hsc]
    refine ⟨rfl, rfl, ⟨"Cookies file not found at ",
        ". Ensure " ++ cookies_file ++ " exists with valid Instagram cookies in Netscape format.", ?_⟩,
      rfl, ⟨_, rfl, rfl, ⟨"Cookies file not found at ",
        ". Ensure " ++ cookies_file ++ " exists with valid Instagram cookies in Netscape format.", ?_⟩⟩⟩
    · show "Cookies file not found at " ++ ospathJoin scriptDir cookies_file ++
        ". Ensure " ++ cookies_file ++ " exists with valid Instagram cookies in Netscape format." =
          "Cookies file not found at " ++ ospathJoin scriptDir cookies_file ++
            (". Ensure " ++ cookies_file ++ " exists with valid Instagram cookies in Netscape format.")
      simp [String.append_assoc]
    · show "Cookies file not found at " ++ ospathJoin scriptDir cookies_file ++
        ". Ensure " ++ cookies_file ++ " exists with valid Instagram cookies in Netscape format." =
          "Cookies file not found at " ++ ospathJoin scriptDir cookies_file ++
            (". Ensure " ++ cookies_file ++ " exists with valid Instagram cookies in Netscape format.")
      simp [String.append_assoc]
  · intro hv hl
    obtain ⟨sc, hsc⟩ := Option.isSome_iff_exists.mp hv
    unfold get_instagram_post_urls download_instagram_post
    rw [hsc]
    simp only [hl, if_true]
    refine ⟨?_, ?_, ?_, ?_⟩ <;> trivial

theorem local_failures_no_network_witness :
    (get_instagram_post_urls "not a url" "cookies/cookies.txt" "/srv" true goodCookieFile
      (FetchOutcome.ok samplePost)).2 = 0 ∧
    (get_instagram_post_urls "not a url" "cookies/cookies.txt" "/srv" true goodCookieFile
      (FetchOutcome.ok samplePost)).1.status = "error" ∧
    (download_instagram_post "not a url" "downloads" "cookies/cookies.txt" 2 "/srv" true
      goodCookieFile sampleOkStep).2 = 0 ∧
    (download_instagram_post "not a url" "downloads" "cookies/cookies.txt" 2 "/srv" true
      goodCookieFile sampleOkStep).1 =
      some ⟨"error", "Invalid Instagram URL! Please ensure it contains a valid post code (e.g., instagram.com/p/XXXXX).", []⟩ :=
  (local_failures_no_network "not a url" "downloads" "cookies/cookies.txt" "/srv" goodCookieFile
    (FetchOutcome.ok samplePost) 2 sampleOkStep true).1 (by decide)

/-- C10 -/
theorem download_success_payload (url save_dir cookies_file scriptDir : String)
    (cf : CookieFile) (mr : Nat) (step : Nat → StepOutcome) (sc : List Char)
    (ck : String × String) (listing : List String)
    (hv : validate_url url.toList = some sc)
    (hl : load_cookies_from_file cf = some ck)
    (h0 : step 0 = StepOutcome.ok listing) :
    download_instagram_post url save_dir cookies_file mr scriptDir true cf step =
      (some ⟨"success", "Download complete! Files saved in " ++ save_dir ++ ".",
        (listing.filter (fun f => sc.isPrefixOf f.toList)).map (fun f => ospathJoin save_dir f)⟩,
        1) := by
  unfold download_instagram_post
  rw [hv]
  simp only [hl, if_true, downloadLoop, h0]

theorem download_success_payload_witness :
    download_instagram_post "instagram.com/p/ABC" "downloads" "cookies/cookies.txt" 2 "/srv"
        true goodCookieFile sampleOkStep =
      (some ⟨"success", "Download complete! Files saved in downloads.",
        ["downloads/ABC.jpg", "downloads/ABC_old.jpg"]⟩, 1) :=
  download_success_payload "instagram.com/p/ABC" "downloads" "cookies/cookies.txt" "/srv"
    goodCookieFile 2 sampleOkStep "ABC".toList ("sid", "csrf")
    ["ABC.jpg", "other.txt", "ABC_old.jpg"] (by decide) (by decide) rfl

/-- C6: the code raises an uncaught `TypeError` (surfacing as a framework
500, not the claimed 400 with a fixed message) when the JSON body is the
bare number `5`, which has no `url` field; the orchestrator is never
invoked. -/
theorem missing_url_numeric_body_raises (orch : String → UrlsResult) :
    download_post (some (JVal.num 5)) orch = (HandlerOutcome.raise "TypeError", 0) :=
  rfl

/-- C7: the code raises an uncaught `AttributeError` (surfacing as a
framework 500) when the JSON body is `{"url": 123}`, a present but
non-string `url` field; no 200/400 response is produced by the handler. -/
theorem nonstring_url_raises (orch : String → UrlsResult) :
    download_post (some (JVal.obj [("url", JVal.num 123)])) orch =
      (HandlerOutcome.raise "AttributeError", 0) :=
  rfl
